import Mathlib

/-!
Verification of the slides_agent repository: a shallow embedding of the
code-interpreter output classifier (`code_interpreter.py`), the sandbox
registry and tool dispatcher, and the Temporal conversation-orchestrator
workflow (`temporal_agent_infographics.py`), together with proofs settling
the specification claims about them.

Conventions of the embedding:
* Python JSON values are modelled by the inductive `Json`; Python dicts
  (as produced by `json.loads`, with string keys and insertion order)
  are association lists `List (String × Json)` with first-occurrence
  lookup (`dictGet`), in-place update (`dictSet`), and `dict.pop`
  (`dictPop`).
* A Python call that may raise is modelled as `Except`; the payload of
  the `error` constructor records the exception plus the state at raise
  time, mirroring the statement order of the source.
* External effects (the Jupyter kernel channel, the filesystem touched by
  the pptx/openpyxl/pandas helpers, the OpenAI call) are oracles supplied
  through environment records; the code of the repository itself is
  translated statement by statement.
-/

namespace SlidesAgent

/-- JSON values as produced by `json.loads`.  Objects keep insertion
order as association lists (Python dicts cannot hold duplicate keys). -/
inductive Json where
  | null : Json
  | bool : Bool → Json
  | num : Int → Json
  | str : String → Json
  | arr : List Json → Json
  | obj : List (String × Json) → Json

/-- Python `d[k]` read on a dict: first (unique) occurrence of the key. -/
def dictGet {α : Type} (k : String) : List (String × α) → Option α
  | [] => none
  | (k', v) :: rest =>
    match k == k' with
    | true => some v
    | false => dictGet k rest

/-- Python `d[k] = v` on a dict: replace in place, else append (insertion
order preserved, as for Python dicts). -/
def dictSet {α : Type} (k : String) (v : α) : List (String × α) → List (String × α)
  | [] => [(k, v)]
  | (k', v') :: rest =>
    match k == k' with
    | true => (k, v) :: rest
    | false => (k', v') :: dictSet k v rest

/-- Python `d.pop(k)`: the value and the remaining dict, or `none` when
the key is absent (Python raises `KeyError`). -/
def dictPop {α : Type} (k : String) : List (String × α) → Option (α × List (String × α))
  | [] => none
  | (k', v) :: rest =>
    match k == k' with
    | true => some (v, rest)
    | false =>
      match dictPop k rest with
      | some (v', rest') => some (v', (k', v) :: rest')
      | none => none

/-- Python `j == s` for a JSON value against a string literal: true only
when `j` is that string (Python `==` across types is `False`). -/
def jstrEq (j : Json) (s : String) : Bool :=
  match j with
  | .str t => t == s
  | _ => false

/-- Exceptions that the embedded Python fragments can raise. -/
inductive PyErr where
  | keyError (key : String)
  | typeError
  | jsonDecodeError

/-- `code_interpreter.ExecutionError`: `{name, value, traceback}`.  The
source does not enforce runtime types, so the fields hold the JSON values
that were put into them. -/
structure ExecutionError where
  name : Json
  value : Json
  traceback : Json

/-- `code_interpreter.Result`: the multi-format result record.  Fields
default to `None` (here `Json.null`) and `is_main_result` to `False`;
Python never checks the runtime type of what is assigned. -/
structure Result where
  text : Json := Json.null
  html : Json := Json.null
  markdown : Json := Json.null
  svg : Json := Json.null
  png : Json := Json.null
  jpeg : Json := Json.null
  pdf : Json := Json.null
  latex : Json := Json.null
  json : Json := Json.null
  javascript : Json := Json.null
  data : Json := Json.null
  chart : Json := Json.null
  is_main_result : Json := Json.bool false

/-- `code_interpreter.Execution`: the accumulated record for draining one
code submission. -/
structure Execution where
  results : List Result := []
  stdout : List Json := []
  stderr : List Json := []
  error : Option ExecutionError := none
  execution_count : Option Json := none

/-- The declared keyword parameters of `Result.__init__`; `Result(**data)`
raises `TypeError` on any other key. -/
def resultFields : List String :=
  ["text", "html", "markdown", "svg", "png", "jpeg", "pdf", "latex",
   "json", "javascript", "data", "chart", "is_main_result"]

/-- `Result(**data)`: every key must be a declared field; declared fields
absent from `data` keep their defaults. -/
def buildResult (kvs : List (String × Json)) : Except PyErr Result :=
  match kvs.all (fun kv => resultFields.contains kv.1) with
  | false => .error .typeError
  | true =>
    .ok
      { text := (dictGet "text" kvs).getD Json.null
        html := (dictGet "html" kvs).getD Json.null
        markdown := (dictGet "markdown" kvs).getD Json.null
        svg := (dictGet "svg" kvs).getD Json.null
        png := (dictGet "png" kvs).getD Json.null
        jpeg := (dictGet "jpeg" kvs).getD Json.null
        pdf := (dictGet "pdf" kvs).getD Json.null
        latex := (dictGet "latex" kvs).getD Json.null
        json := (dictGet "json" kvs).getD Json.null
        javascript := (dictGet "javascript" kvs).getD Json.null
        data := (dictGet "data" kvs).getD Json.null
        chart := (dictGet "chart" kvs).getD Json.null
        is_main_result := (dictGet "is_main_result" kvs).getD (Json.bool false) }

/-- The `"result"` branch of `parse_output`: `result = Result(**data);
execution.results.append(result)`.  The `Result(**data)` call is evaluated
before the append, so a `TypeError` leaves the execution untouched. -/
def applyResult (ex : Execution) (data : List (String × Json)) :
    Except (PyErr × Execution) Execution :=
  match buildResult data with
  | .ok r => .ok { ex with results := ex.results ++ [r] }
  | .error e => .error (e, ex)

/-- The `"stdout"` branch: `execution.stdout.append(data["text"])`; the
subscript is evaluated before the append. -/
def applyStdout (ex : Execution) (data : List (String × Json)) :
    Except (PyErr × Execution) Execution :=
  match dictGet "text" data with
  | none => .error (.keyError "text", ex)
  | some t => .ok { ex with stdout := ex.stdout ++ [t] }

/-- The `"stderr"` branch: `execution.stderr.append(data["text"])`. -/
def applyStderr (ex : Execution) (data : List (String × Json)) :
    Except (PyErr × Execution) Execution :=
  match dictGet "text" data with
  | none => .error (.keyError "text", ex)
  | some t => .ok { ex with stderr := ex.stderr ++ [t] }

/-- The `"error"` branch: `ExecutionError(name=data["name"],
value=data["value"], traceback=data["traceback"])` — the three subscripts
are evaluated in this order before `execution.error` is assigned
(overwriting any earlier error). -/
def applyErrorMsg (ex : Execution) (data : List (String × Json)) :
    Except (PyErr × Execution) Execution :=
  match dictGet "name" data with
  | none => .error (.keyError "name", ex)
  | some n =>
    match dictGet "value" data with
    | none => .error (.keyError "value", ex)
    | some v =>
      match dictGet "traceback" data with
      | none => .error (.keyError "traceback", ex)
      | some tb => .ok { ex with error := some ⟨n, v, tb⟩ }

/-- The `"number_of_executions"` branch:
`execution.execution_count = data["execution_count"]`. -/
def applyCount (ex : Execution) (data : List (String × Json)) :
    Except (PyErr × Execution) Execution :=
  match dictGet "execution_count" data with
  | none => .error (.keyError "execution_count", ex)
  | some c => .ok { ex with execution_count := some c }

/-- The `if data_type == ... elif ...` chain of `parse_output`; an
unrecognized type falls through every branch and changes nothing. -/
def dispatchType (ex : Execution) (dtype : Json) (data : List (String × Json)) :
    Except (PyErr × Execution) Execution :=
  match jstrEq dtype "result" with
  | true => applyResult ex data
  | false =>
    match jstrEq dtype "stdout" with
    | true => applyStdout ex data
    | false =>
      match jstrEq dtype "stderr" with
      | true => applyStderr ex data
      | false =>
        match jstrEq dtype "error" with
        | true => applyErrorMsg ex data
        | false =>
          match jstrEq dtype "number_of_executions" with
          | true => applyCount ex data
          | false => .ok ex

/-- `data = json.loads(output); data_type = data.pop("type")` on an
already-decoded object; a missing `"type"` key raises `KeyError`, a
non-dict decode raises when `.pop` is attempted. -/
def parseObj (ex : Execution) (kvs : List (String × Json)) :
    Except (PyErr × Execution) Execution :=
  match dictPop "type" kvs with
  | none => .error (.keyError "type", ex)
  | some (dtype, data) => dispatchType ex dtype data

/-- The `try:` body of `CodeExecutor.parse_output`.  The input is the
outcome of `json.loads(output)`: `none` models an invalid-JSON string
(`json.loads` raises), `some j` the decoded value.  The `error`
constructor carries the execution state at raise time; callbacks
(`on_stdout` etc.) are omitted because no claim passes any and they never
modify the `Execution`. -/
def parse_output_try (ex : Execution) (output : Option Json) :
    Except (PyErr × Execution) Execution :=
  match output with
  | none => .error (.jsonDecodeError, ex)
  | some (.obj kvs) => parseObj ex kvs
  | some _ => .error (.typeError, ex)

/-- The `except Exception` handler of `parse_output`: it only prints, so
the (in-place mutated) execution at raise time is what remains. -/
def handleParse : Except (PyErr × Execution) Execution → Execution
  | .ok e => e
  | .error (_, e) => e

/-- `CodeExecutor.parse_output`: try body wrapped in the catch-all. -/
def parse_output (ex : Execution) (output : Option Json) : Execution :=
  handleParse (parse_output_try ex output)

/-- The per-message read timeout of `get_iopub_msg(timeout=10)`. -/
def read_timeout_seconds : Nat := 10

/-- One Jupyter iopub message as consumed by `CodeExecutor.run_code`:
`stream` carries `content['name']`, `content['text']` and the read time,
`executeResult`/`displayData` carry the MIME map `content['data']`,
`errorMsg` carries `ename`, `evalue`, `traceback`, `statusIdle` is the
terminating `status/idle` message, `statusBusy` any other status, and
`otherMsg` any message type the loop ignores. -/
inductive IOPubMsg where
  | stream (name : String) (text : Json) (ts : Int)
  | executeResult (data : List (String × Json))
  | displayData (data : List (String × Json))
  | errorMsg (ename : Json) (evalue : Json) (tb : Json)
  | statusIdle
  | statusBusy
  | otherMsg

/-- One iteration of the drain loop: either `get_iopub_msg` returns a
message, or it raises (read timeout `Empty`, or any channel error) with
the exception's type name and its `str(...)`. -/
inductive ChannelEvent where
  | msg (m : IOPubMsg)
  | exc (excName : String) (excStr : String)

/-- The wire object `{"type": stdout|stderr, "text": ..., "timestamp": ...}`
built for a `stream` message; `isOut` is `content['name'] == 'stdout'`. -/
def streamWire (isOut : Bool) (text : Json) (ts : Int) : Json :=
  .obj [("type", .str (cond isOut "stdout" "stderr")), ("text", text),
        ("timestamp", .num ts)]

/-- The key a MIME type of `content['data']` is stored under in the
`result` wire object, per the `for mime, value in data.items()` scan. -/
def mimeKey (mime : String) : Option String :=
  match mime == "text/plain" with
  | true => some "text"
  | false =>
    match mime == "text/html" with
    | true => some "html"
    | false =>
      match mime == "image/png" with
      | true => some "png"
      | false =>
        match mime == "image/jpeg" with
        | true => some "jpeg"
        | false =>
          match mime == "image/svg+xml" with
          | true => some "svg"
          | false =>
            match mime == "application/json" with
            | true => some "json"
            | false =>
              match mime == "text/markdown" with
              | true => some "markdown"
              | false => none

/-- The MIME scan of `run_code` filling `result_data` key by key. -/
def mimeFold (acc : List (String × Json)) : List (String × Json) → List (String × Json)
  | [] => acc
  | (mime, v) :: rest =>
    match mimeKey mime with
    | some k => mimeFold (dictSet k v acc) rest
    | none => mimeFold acc rest

/-- The tail of `result_data` after `{"type": "result",
"is_main_result": ...}` is initialized and the MIME scan has run. -/
def mimeScan (main : Bool) (data : List (String × Json)) : List (String × Json) :=
  mimeFold [("is_main_result", Json.bool main)] data

/-- The full `result_data` wire object (the `"type"` key is inserted
first and never touched by the MIME scan). -/
def resultWire (main : Bool) (data : List (String × Json)) : Json :=
  .obj (("type", .str "result") :: mimeScan main data)

/-- The wire object built for an iopub `error` message. -/
def errorWire (n v tb : Json) : Json :=
  .obj [("type", .str "error"), ("name", n), ("value", v), ("traceback", tb)]

/-- The wire object synthesized in the `except` branch of the drain loop:
`name = type(e).__name__`, `value = str(e)`, `traceback = []`. -/
def excWire (n s : String) : Json :=
  .obj [("type", .str "error"), ("name", .str n), ("value", .str s),
        ("traceback", .arr [])]

/-- The `while True` drain loop of `CodeExecutor.run_code` over the
sequence of channel read outcomes: each message is re-serialized to a
wire object and fed to `parse_output`; `status/idle` breaks; a raising
read synthesizes an error wire object, feeds it, and breaks. -/
def drain (ex : Execution) : List ChannelEvent → Execution
  | [] => ex
  | .msg (.stream name text ts) :: rest =>
    drain (parse_output ex (some (streamWire (name == "stdout") text ts))) rest
  | .msg (.executeResult data) :: rest =>
    drain (parse_output ex (some (resultWire true data))) rest
  | .msg (.displayData data) :: rest =>
    drain (parse_output ex (some (resultWire false data))) rest
  | .msg (.errorMsg n v tb) :: rest =>
    drain (parse_output ex (some (errorWire n v tb))) rest
  | .msg .statusIdle :: _ => ex
  | .msg .statusBusy :: rest => drain ex rest
  | .msg .otherMsg :: rest => drain ex rest
  | .exc n s :: _ => parse_output ex (some (excWire n s))

/-- `CodeExecutor.run_code`: start from a fresh `Execution` and drain the
iopub channel (the submitted code only determines what the kernel sends,
which here is the event list). -/
def run_code (code : String) (events : List ChannelEvent) : Execution :=
  drain {} events

/-- Events at which the drain loop stops: the idle status message and a
raising channel read. -/
def isStop : ChannelEvent → Bool
  | .msg .statusIdle => true
  | .exc _ _ => true
  | _ => false

/-- No event of the list stops the drain loop. -/
def noStop (events : List ChannelEvent) : Bool :=
  events.all (fun e => !isStop e)

/-- The `ExecutionError` an iopub `error` message turns into (raising
reads and idle are excluded by `noStop` where this is used). -/
def evErr : ChannelEvent → Option ExecutionError
  | .msg (.errorMsg n v tb) => some ⟨n, v, tb⟩
  | _ => none

/-- First-of-two options (the later part of the stream wins when the
stream is folded back to front). -/
def orElseErr (o : Option ExecutionError) (b : Option ExecutionError) : Option ExecutionError :=
  match o with
  | some er => some er
  | none => b

/-- The last `error` message of an event list, as an `ExecutionError`. -/
def lastError : List ChannelEvent → Option ExecutionError
  | [] => none
  | e :: rest => orElseErr (lastError rest) (evErr e)

/-! ### Sandbox registry (`setup_code_executor` over `code_executor_instances`) -/

/-- The process-wide `code_executor_instances` dict together with a
counter of `CodeExecutor(...)` constructions; each construction (which
starts and initializes a fresh kernel session) is modelled as allocating
the next identifier. -/
structure Registry where
  instances : List (String × Nat)
  next : Nat

/-- `setup_code_executor`: unconditionally constructs a new
`CodeExecutor(install_dependencies=True)` and stores it under the
workflow id (the success path; a failing construction would return an
error dict without registering anything). -/
def setup_code_executor (r : Registry) (workflow_id : String) : Registry × Json :=
  ({ instances := dictSet workflow_id r.next r.instances, next := r.next + 1 },
   Json.obj [("status", Json.str "success"),
             ("message", Json.str ("Code executor initialized for workflow " ++ workflow_id))])

/-! ### Tool dispatcher (`execute_tool` and its handlers) -/

/-- A Python value crossing the tool boundary: the handlers return
strings except `get_data_analysis`, which returns a dict on its two early
error paths and a `json.dumps` string otherwise. -/
inductive PyVal where
  | str (s : String)
  | dict (j : Json)

/-- Oracles for the external libraries the handlers call inside their
`try:` blocks (`pptx`, `pandas`, `openpyxl`, the per-workflow
`CodeExecutor`): each returns the produced value or the message of the
exception it raises. -/
structure ToolEnv where
  openPresentation : Json → Except String Int
  renderSlide : Json → Int → Except String String
  excelMarkdown : Json → Json → Except String String
  runSlideCode : Json → Int → Json → Except String String
  modifyExcelCode : Json → Json → Json → Except String String
  executorPresent : String → Bool
  loadExcelDict : Json → Json → Except String Json
  runCodeAnalysis : String → Json → Json → Json → String → Json
  dumps : Json → String

/-- Whether a JSON value is a Python `str` (what
`preamble + "\n" + code` requires of `code` to not raise). -/
def isStrVal : Json → Bool
  | .str _ => true
  | _ => false

/-- `str(...)` of an argument interpolated into an error f-string (only
its occurrence matters to the claims, not its rendering). -/
def pyStr : Json → String
  | .str s => s
  | _ => "<value>"

/-- The `f"\n\nCode attempted to execute:\n{code}"` suffix of the
`modify_slide` / `modify_excel` exception handlers. -/
def codeSuffix (code : Json) : String :=
  "\n\nCode attempted to execute:\n" ++ pyStr code

/-- Message of the `TypeError` raised when `0 <= slide_index` compares a
non-integer (caught by the handler's `except`). -/
def typeErrMsg : String := "TypeError: unsupported comparison"

/-- `get_slide_xml`: open the presentation, check the index range
(returning the out-of-range string without raising), render the slide;
any exception is caught and rendered as `"Error: ..."`. -/
def get_slide_xml (env : ToolEnv) (file_path slide_index : Json) : String :=
  match env.openPresentation file_path with
  | .error e => "Error: " ++ e
  | .ok n =>
    match slide_index with
    | .num i =>
      match decide (0 ≤ i ∧ i < n) with
      | true =>
        match env.renderSlide file_path i with
        | .ok xml => xml
        | .error e => "Error: " ++ e
      | false => "Error: Slide index " ++ toString i ++ " out of range."
    | _ => "Error: " ++ typeErrMsg

/-- `get_excel_table`: `pd.read_excel(...).to_markdown(index=False)` with
the catch-all rendering. -/
def get_excel_table (env : ToolEnv) (file_path sheet_name : Json) : String :=
  match env.excelMarkdown file_path sheet_name with
  | .ok md => md
  | .error e => "Error: " ++ e

/-- `modify_slide`: open, range-check (plain return, no code suffix),
execute the code and save, render the updated XML; exceptions are
rendered as `"Error: ...\n\nCode attempted to execute:\n..."`. -/
def modify_slide (env : ToolEnv) (file_path slide_index code : Json) : String :=
  match env.openPresentation file_path with
  | .error e => "Error: " ++ e ++ codeSuffix code
  | .ok n =>
    match slide_index with
    | .num i =>
      match decide (0 ≤ i ∧ i < n) with
      | true =>
        match env.runSlideCode file_path i code with
        | .ok xml => xml
        | .error e => "Error: " ++ e ++ codeSuffix code
      | false => "Error: Slide index " ++ toString i ++ " out of range."
    | _ => "Error: " ++ typeErrMsg ++ codeSuffix code

/-- `modify_excel`: read, execute the code against `df`, write back,
return the markdown table; exceptions rendered with the code suffix. -/
def modify_excel (env : ToolEnv) (file_path sheet_name code : Json) : String :=
  match env.modifyExcelCode file_path sheet_name code with
  | .ok md => md
  | .error e => "Error: " ++ e ++ codeSuffix code

/-- `get_data_analysis`: a missing executor and a failed Excel load
return status-error dicts without raising; then
`full_code = preamble + "\n" + code` is evaluated OUTSIDE both `try`
blocks and raises an uncaught `TypeError` whenever `code` is not a
string.  With a string `code`, the preamble construction (the
`isinstance` chain over the context, which never raises), the kernel
execution and the response assembly — whose own `try` returns a
`json.dumps` error payload on any exception — are the total oracle
`runCodeAnalysis`, serialized to a string. -/
def get_data_analysis (env : ToolEnv) (file_path sheet_name code : Json)
    (workflow_id : String) : Except PyErr PyVal :=
  match env.executorPresent workflow_id with
  | false =>
    .ok (.dict (Json.obj
      [("status", .str "error"),
       ("message", .str ("No code executor found for workflow " ++ workflow_id)),
       ("stdout", .arr []),
       ("stderr", .arr [.str ("Code executor not initialized for workflow " ++ workflow_id)]),
       ("results", .arr [])]))
  | true =>
    match env.loadExcelDict file_path sheet_name with
    | .error e =>
      .ok (.dict (Json.obj
        [("status", .str "error"),
         ("message", .str ("Failed to load Excel data: " ++ e)),
         ("stdout", .arr []),
         ("stderr", .arr [.str ("Error loading Excel data: " ++ e)]),
         ("results", .arr [])]))
    | .ok dfDict =>
      match code with
      | .str codeStr =>
        .ok (.str (env.dumps
          (env.runCodeAnalysis workflow_id file_path sheet_name dfDict codeStr)))
      | _ => .error .typeError

/-- `execute_tool` (temporal_agent_infographics.py): dispatch on the tool
name and subscript `tool_args` for each required argument in source
order; a missing key raises `KeyError` out of the dispatcher
(`Except.error`), an unknown name returns the soft-failure string. -/
def execute_tool (env : ToolEnv) (workflow_id tool_name : String)
    (tool_args : List (String × Json)) : Except PyErr PyVal :=
  match tool_name == "get_slide" with
  | true =>
    match dictGet "file_path" tool_args with
    | none => .error (.keyError "file_path")
    | some fp =>
      match dictGet "slide_index" tool_args with
      | none => .error (.keyError "slide_index")
      | some si => .ok (.str (get_slide_xml env fp si))
  | false =>
    match tool_name == "get_excel_data" with
    | true =>
      match dictGet "file_path" tool_args with
      | none => .error (.keyError "file_path")
      | some fp =>
        match dictGet "sheet_name" tool_args with
        | none => .error (.keyError "sheet_name")
        | some sn => .ok (.str (get_excel_table env fp sn))
    | false =>
      match tool_name == "modify_slide" with
      | true =>
        match dictGet "file_path" tool_args with
        | none => .error (.keyError "file_path")
        | some fp =>
          match dictGet "slide_index" tool_args with
          | none => .error (.keyError "slide_index")
          | some si =>
            match dictGet "code" tool_args with
            | none => .error (.keyError "code")
            | some code => .ok (.str (modify_slide env fp si code))
      | false =>
        match tool_name == "modify_excel" with
        | true =>
          match dictGet "file_path" tool_args with
          | none => .error (.keyError "file_path")
          | some fp =>
            match dictGet "sheet_name" tool_args with
            | none => .error (.keyError "sheet_name")
            | some sn =>
              match dictGet "code" tool_args with
              | none => .error (.keyError "code")
              | some code => .ok (.str (modify_excel env fp sn code))
        | false =>
          match tool_name == "get_data_analysis" with
          | true =>
            match dictGet "file_path" tool_args with
            | none => .error (.keyError "file_path")
            | some fp =>
              match dictGet "sheet_name" tool_args with
              | none => .error (.keyError "sheet_name")
              | some sn =>
                match dictGet "code" tool_args with
                | none => .error (.keyError "code")
                | some code => get_data_analysis env fp sn code workflow_id
          | false => .ok (.str ("Unknown tool: " ++ tool_name))

/-- The keys `execute_tool` subscripts for each recognized tool name, in
source order. -/
def requiredArgKeys (tool_name : String) : List String :=
  match tool_name == "get_slide" with
  | true => ["file_path", "slide_index"]
  | false =>
    match tool_name == "get_excel_data" with
    | true => ["file_path", "sheet_name"]
    | false =>
      match tool_name == "modify_slide" with
      | true => ["file_path", "slide_index", "code"]
      | false =>
        match tool_name == "modify_excel" with
        | true => ["file_path", "sheet_name", "code"]
        | false =>
          match tool_name == "get_data_analysis" with
          | true => ["file_path", "sheet_name", "code"]
          | false => []

/-- All listed keys are present in the argument object. -/
def hasKeys (args : List (String × Json)) (keys : List String) : Bool :=
  keys.all (fun k => (dictGet k args).isSome)

/-! ### Conversation orchestrator (`PPTAgentWorkflow`) -/

/-- An LLM tool call as stored in the transcript:
`{"id", "function": {"name", "arguments"}}` with the arguments still a
JSON string. -/
structure ToolCall where
  id : String
  name : String
  arguments : String

/-- One transcript message; the roles and per-role fields of the dicts
appended by the workflow. -/
inductive Message where
  | system (content : String)
  | user (content : String)
  | assistant (content : String) (tool_calls : List ToolCall)
  | tool (tool_call_id : String) (name : String) (content : String)

/-- The `content` entry of a message dict. -/
def contentOf : Message → String
  | .system c => c
  | .user c => c
  | .assistant c _ => c
  | .tool _ _ c => c

/-- `msg["content"] = c` on a message dict. -/
def setContent (c : String) : Message → Message
  | .system _ => .system c
  | .user _ => .user c
  | .assistant _ tcs => .assistant c tcs
  | .tool i n _ => .tool i n c

/-- `self.messages[0]["content"] = c` (the head is the system message by
construction; an empty list would raise in Python and is left unchanged
here). -/
def updateHead (c : String) : List Message → List Message
  | [] => []
  | m :: rest => setContent c m :: rest

/-- `self.messages[0]["content"]` as read back from the transcript. -/
def headContent : List Message → String
  | [] => ""
  | m :: _ => contentOf m

/-- The initial system message content set at the top of `run`. -/
def initialSystemContent : String :=
  "You are an AI PowerPoint and Excel agent. You can view and modify PowerPoint slides and Excel sheets."

/-- The system prompt rebuilt at the start of each user turn (the
f-string of `run` after the memory and mapping activities), with the
`json.dumps` serializations of the memory snapshot and the file mapping
interpolated. -/
def sysPrompt1 (memStr fmStr : String) : String :=
  "You are an AI PowerPoint and Excel agent. You can view and modify PowerPoint slides and Excel sheets.\n                \nThe memory snapshot of available files is:\n"
  ++ memStr
  ++ "\n\nFile paths mapping:\n"
  ++ fmStr
  ++ "\n\nYou have access to the following tools:\n1. get_slide - Get the XML representation of a slide. Use this tool to examine slide structure/content before proceeding with any slide modifications.\n2. get_excel_data - Get data from an Excel sheet as a markdown table. Use this tool to analyze data structure before proceeding with any excel modifications.\n3. modify_slide - Use this tool to modify any Slide using Python code.\n4. modify_excel - Use this tool to modify any Excel sheet using Python code.\n5. get_data_analysis - Get data analysis and visualizations(infographics) on an Excel sheet using IPython code.\n\nWhen modifying slides, you have access to a 'slide' object from the python-pptx library.\nWhen modifying Excel, you have access to a 'df' DataFrame object from pandas.\nWhen using the get_data_analysis, you have access to libraries like pandas, matplotlib, numpy, and plotly. You also have access to a 'df' DataFrame object (Excel sheet) from pandas.\n\nAlways plan your approach before making changes. First examine the files to understand their structure,\nthen make targeted modifications based on the user's request.\n"

/-- The system prompt rebuilt after a mutating tool call (the second
f-string of `run`, whose tool list wording differs from the first). -/
def sysPrompt2 (memStr fmStr : String) : String :=
  "You are an AI PowerPoint and Excel agent. You can view and modify PowerPoint slides and Excel sheets.\n                                \nThe memory snapshot of available files is:\n"
  ++ memStr
  ++ "\n\nFile paths mapping:\n"
  ++ fmStr
  ++ "\n\nYou have access to the following tools:\n1. get_slide - Get the XML representation of a slide\n2. get_excel_data - Get data from an Excel sheet as a markdown table\n3. modify_slide - Modify a slide using Python code\n4. modify_excel - Modify an Excel sheet using Python code\n5. get_data_analysis - Get data analysis and visualizations(infographics) on an Excel sheet using IPython code.\n\nWhen modifying slides, you have access to a 'slide' object from the python-pptx library.\nWhen modifying Excel, you have access to a 'df' DataFrame object from pandas.\nWhen using the get_data_analysis, you have access to libraries like pandas, matplotlib, numpy, and plotly. You also have access to a 'df' DataFrame object (Excel sheet) from pandas.\n\nAlways plan your approach before making changes. First examine the files to understand their structure,\nthen make targeted modifications based on the user's request.\n"

/-- The tools whose completion triggers a memory rebuild
(`tool_name in ["modify_slide", "modify_excel"]`). -/
def isMutating (name : String) : Bool :=
  name == "modify_slide" || name == "modify_excel"

/-- The payload of the `user_input` signal after the `.get` defaults are
applied. -/
structure InputData where
  query : String
  pptx_files : List String
  excel_files : List String

/-- Oracles for the activities the workflow awaits: the memory snapshot
as a function of the file lists and an abstract filesystem version
(bumped by each mutating tool call), the file-path mapping, the two
`json.dumps` serializations, and the `call_llm` / `execute_tool` activity
results indexed by invocation count. -/
structure Env where
  snapshot : List String → List String → Nat → Json
  fileMapping : List String → List String → Json
  dumpsMem : Json → String
  dumpsMap : Json → String
  llm : Nat → String × List ToolCall
  tool : Nat → String

/-- The await the workflow coroutine is currently suspended on.
`waitInput` is the `wait_condition` on `user_input_received` (the Idle
state); `awaitToolSnap` is the memory-rebuild activity after a mutating
tool call, carrying the pending tool call, the remaining calls of the
batch, and the already-received tool response. -/
inductive Phase where
  | awaitSetup
  | waitInput
  | awaitTurnSnap
  | awaitMap
  | awaitLlm
  | awaitTool (current : ToolCall) (rest : List ToolCall)
  | awaitToolSnap (current : ToolCall) (rest : List ToolCall) (resp : String)

/-- The instance state of `PPTAgentWorkflow` plus the suspension point,
the abstract filesystem version, and the activity invocation counters. -/
structure WFState where
  messages : List Message
  pptx_files : List String
  excel_files : List String
  file_path_mapping : Json
  memory : Json
  user_input_received : Bool
  user_query : String
  fsv : Nat
  llmN : Nat
  toolN : Nat
  phase : Phase

/-- State after `__init__` and the first statements of `run` (system
message installed, setup activity being awaited). -/
def initState : WFState :=
  { messages := [.system initialSystemContent]
    pptx_files := []
    excel_files := []
    file_path_mapping := Json.obj []
    memory := Json.obj []
    user_input_received := false
    user_query := ""
    fsv := 0
    llmN := 0
    toolN := 0
    phase := .awaitSetup }

/-- The `user_input` signal handler: unconditionally overwrite the stored
query and file lists and set the received flag (it runs whenever a signal
is delivered, in any phase). -/
def user_input (s : WFState) (input : InputData) : WFState :=
  { s with user_query := input.query
           pptx_files := input.pptx_files
           excel_files := input.excel_files
           user_input_received := true }

/-- The phase after a tool batch element is finished: next call of the
batch, or back to the LLM call. -/
def nextPhase : List ToolCall → Phase
  | [] => .awaitLlm
  | tc :: rest => .awaitTool tc rest

/-- Resolve the currently-awaited suspension and run the workflow
coroutine synchronously to its next await, following `run` statement by
statement (activity results come from the oracles in `env`; a mutating
tool call bumps the filesystem version when its activity completes). -/
def tick (env : Env) (s : WFState) : WFState :=
  match s.phase with
  | .awaitSetup => { s with phase := .waitInput }
  | .waitInput =>
    match s.user_input_received with
    | false => s
    | true => { s with user_input_received := false, phase := .awaitTurnSnap }
  | .awaitTurnSnap =>
    { s with memory := env.snapshot s.pptx_files s.excel_files s.fsv
             phase := .awaitMap }
  | .awaitMap =>
    { s with file_path_mapping := env.fileMapping s.pptx_files s.excel_files
             messages :=
               updateHead
                 (sysPrompt1 (env.dumpsMem s.memory)
                   (env.dumpsMap (env.fileMapping s.pptx_files s.excel_files)))
                 s.messages ++ [.user s.user_query]
             phase := .awaitLlm }
  | .awaitLlm =>
    match env.llm s.llmN with
    | (c, []) =>
      { s with messages := s.messages ++ [.assistant c []]
               llmN := s.llmN + 1
               phase := .waitInput }
    | (c, tc :: rest) =>
      { s with messages := s.messages ++ [.assistant c (tc :: rest)]
               llmN := s.llmN + 1
               phase := .awaitTool tc rest }
  | .awaitTool tc rest =>
    match isMutating tc.name with
    | true =>
      { s with toolN := s.toolN + 1
               fsv := s.fsv + 1
               phase := .awaitToolSnap tc rest (env.tool s.toolN) }
    | false =>
      { s with toolN := s.toolN + 1
               messages := s.messages ++ [.tool tc.id tc.name (env.tool s.toolN)]
               phase := nextPhase rest }
  | .awaitToolSnap tc rest resp =>
    { s with memory := env.snapshot s.pptx_files s.excel_files s.fsv
             messages :=
               updateHead
                 (sysPrompt2 (env.dumpsMem (env.snapshot s.pptx_files s.excel_files s.fsv))
                   (env.dumpsMap s.file_path_mapping))
                 s.messages ++ [.tool tc.id tc.name resp]
             phase := nextPhase rest }

/-- Iterated ticks (the workflow progressing through `n` awaits). -/
def ticks (env : Env) : Nat → WFState → WFState
  | 0, s => s
  | Nat.succ n, s => ticks env n (tick env s)

/-- An externally observable event of one session: a `user_input` signal
delivery, or the completion of the currently-awaited activity/condition.
Signals may be delivered between any two awaits. -/
inductive SEvent where
  | submit (input : InputData)
  | tickEv

/-- Apply one session event. -/
def stepEv (env : Env) (s : WFState) : SEvent → WFState
  | .submit i => user_input s i
  | .tickEv => tick env s

/-- Run a whole schedule of session events from a state. -/
def runEvents (env : Env) (s : WFState) (evs : List SEvent) : WFState :=
  evs.foldl (stepEv env) s

/-- The `get_conversation_history` query: the current transcript. -/
def get_conversation_history (s : WFState) : List Message :=
  s.messages

/-- Number of user messages in a transcript (one per processed turn). -/
def countUser : List Message → Nat
  | [] => 0
  | .user _ :: rest => countUser rest + 1
  | _ :: rest => countUser rest

/-- The contents of the user messages of a transcript, in order. -/
def userContents : List Message → List String
  | [] => []
  | .user c :: rest => c :: userContents rest
  | _ :: rest => userContents rest

/-- Number of awaits one tool call of a batch occupies: a mutating call
also awaits the memory rebuild. -/
def toolCost (tc : ToolCall) : Nat :=
  match isMutating tc.name with
  | true => 2
  | false => 1

/-- Awaits needed to process a whole tool batch. -/
def ticksForCalls : List ToolCall → Nat
  | [] => 0
  | tc :: rest => toolCost tc + ticksForCalls rest

/-- The tool messages a batch appends: exactly one per tool call, in
order, with `tool_call_id` the call's id and content the dispatcher
result of the corresponding `execute_tool` activity invocation. -/
def toolMsgs (env : Env) (n : Nat) : List ToolCall → List Message
  | [] => []
  | tc :: rest => .tool tc.id tc.name (env.tool n) :: toolMsgs env (n + 1) rest

/-- The system message embeds a memory snapshot taken at the current
filesystem version (i.e. after the most recent mutating tool call), via
one of the two prompt templates. -/
def freshContent (env : Env) (s : WFState) : Prop :=
  ∃ pp ee fmStr,
    headContent s.messages
        = sysPrompt1 (env.dumpsMem (env.snapshot pp ee s.fsv)) fmStr
    ∨ headContent s.messages
        = sysPrompt2 (env.dumpsMem (env.snapshot pp ee s.fsv)) fmStr

/-- Phase-indexed part of the freshness invariant: at `awaitMap` the
`memory` field already holds a snapshot at the current filesystem
version; from the first LLM call of a turn up to any point where the next
LLM call could fire, the system message content is fresh. -/
def MemInv (env : Env) (s : WFState) : Prop :=
  match s.phase with
  | .awaitMap => ∃ pp ee, s.memory = env.snapshot pp ee s.fsv
  | .awaitLlm => freshContent env s
  | .awaitTool _ _ => freshContent env s
  | _ => True

/-- The full reachability invariant: nonempty transcript plus the
phase-indexed freshness facts. -/
def Inv (env : Env) (s : WFState) : Prop :=
  s.messages ≠ [] ∧ MemInv env s

/-! ### Concrete inputs used by witnesses and counterexamples -/

/-- Trivial oracle environment: the LLM always answers with content and
no tool calls; snapshots and serializations are constant. -/
def env0 : Env :=
  { snapshot := fun _ _ _ => Json.obj []
    fileMapping := fun _ _ => Json.obj []
    dumpsMem := fun _ => ""
    dumpsMap := fun _ => ""
    llm := fun _ => ("done", [])
    tool := fun _ => "" }

/-- First submitted input. -/
def inputQ1 : InputData := ⟨"q1", [], []⟩

/-- Input submitted while the first turn is being processed. -/
def inputQ2 : InputData := ⟨"q2", [], []⟩

/-- Schedule without an interfering submit: one turn runs. -/
def scheduleNoIntr : List SEvent :=
  [.submit inputQ1, .tickEv, .tickEv, .tickEv, .tickEv, .tickEv, .tickEv, .tickEv]

/-- Schedule with a second submit delivered while the first turn is in
its Processing phase (between the memory-snapshot await and the
file-mapping await). -/
def scheduleIntr : List SEvent :=
  [.submit inputQ1, .tickEv, .tickEv, .submit inputQ2, .tickEv, .tickEv,
   .tickEv, .tickEv, .tickEv, .tickEv, .tickEv]

/-- A non-mutating tool call used by concrete runs. -/
def tcGetSlide : ToolCall := ⟨"call-1", "get_slide", ""⟩

/-- Environment whose LLM requests exactly one tool call on its first
invocation and then stops. -/
def envOneTool : Env :=
  { env0 with
    llm := fun n =>
      match n == 0 with
      | true => ("", [tcGetSlide])
      | false => ("done", []) }

/-- One full turn of `envOneTool` from the initial state: submit, then
setup, input-consume, snapshot, mapping, LLM, tool, LLM. -/
def scheduleOneTool : List SEvent :=
  [.submit inputQ1, .tickEv, .tickEv, .tickEv, .tickEv, .tickEv, .tickEv, .tickEv]

/-- A state in the Idle wait with a pending input, reached from the
initial state by a submit and the setup completion. -/
def stateReady : WFState :=
  runEvents envOneTool initState [.submit inputQ1, .tickEv]

/-- A reachable-shaped state about to call the LLM, used to witness the
tool-batch theorem. -/
def stateAtLlm : WFState :=
  { initState with phase := .awaitLlm }

/-- A schedule reaching the first LLM call of a turn. -/
def scheduleToLlm : List SEvent :=
  [.submit inputQ1, .tickEv, .tickEv, .tickEv, .tickEv]

/-- Channel events: two kernel error messages followed by idle. -/
def twoErrorsIdle : List ChannelEvent :=
  [.msg (.errorMsg (.str "AError") (.str "a") (.arr [])),
   .msg (.errorMsg (.str "BError") (.str "b") (.arr [])),
   .msg .statusIdle]

/-- Channel events: two kernel error messages, no terminator. -/
def twoErrors : List ChannelEvent :=
  [.msg (.errorMsg (.str "AError") (.str "a") (.arr [])),
   .msg (.errorMsg (.str "BError") (.str "b") (.arr []))]

/-- A stdout line read before the channel raises. -/
def preStdout : List ChannelEvent :=
  [.msg (.stream "stdout" (.str "hi") 0)]

/-- The empty registry with no executor constructed yet. -/
def reg0 : Registry := ⟨[], 0⟩

/-- Oracle tool environment where every external operation succeeds. -/
def tenv0 : ToolEnv :=
  { openPresentation := fun _ => .ok 1
    renderSlide := fun _ _ => .ok "<slide></slide>"
    excelMarkdown := fun _ _ => .ok "| a |"
    runSlideCode := fun _ _ _ => .ok "<slide></slide>"
    modifyExcelCode := fun _ _ _ => .ok "| a |"
    executorPresent := fun _ => true
    loadExcelDict := fun _ _ => .ok (Json.obj [])
    runCodeAnalysis := fun _ _ _ _ _ => Json.obj []
    dumps := fun _ => "" }

/-- Tool environment whose presentation open raises. -/
def tenvOpenFail : ToolEnv :=
  { tenv0 with openPresentation := fun _ => .error "boom" }

/-- Tool environment whose slide-code execution raises. -/
def tenvRunFail : ToolEnv :=
  { tenv0 with runSlideCode := fun _ _ _ => .error "exec failed" }

/-- Tool environment whose Excel modification raises. -/
def tenvExcelFail : ToolEnv :=
  { tenv0 with modifyExcelCode := fun _ _ _ => .error "write failed" }

/-- Tool environment whose Excel read (markdown rendering) raises. -/
def tenvMdFail : ToolEnv :=
  { tenv0 with excelMarkdown := fun _ _ => .error "read failed" }

/-- Complete argument object for `get_slide`. -/
def argsGetSlide : List (String × Json) :=
  [("file_path", .str "deck.pptx"), ("slide_index", .num 0)]

end SlidesAgent

namespace SlidesAgent

/-! ## Lemmas about the output classifier and the drain loop -/

theorem parse_output_errorWire (ex : Execution) (n v tb : Json) :
    parse_output ex (some (errorWire n v tb)) = { ex with error := some ⟨n, v, tb⟩ } := rfl

theorem parse_output_excWire (ex : Execution) (n s : String) :
    parse_output ex (some (excWire n s))
      = { ex with error := some ⟨.str n, .str s, .arr []⟩ } := rfl

theorem error_parse_stream (ex : Execution) (text : Json) (ts : Int) (b : Bool) :
    (parse_output ex (some (streamWire b text ts))).error = ex.error := by
  cases b <;> rfl

theorem error_parse_result (ex : Execution) (main : Bool) (data : List (String × Json)) :
    (parse_output ex (some (resultWire main data))).error = ex.error := by
  show (handleParse (applyResult ex (mimeScan main data))).error = ex.error
  unfold applyResult
  cases buildResult (mimeScan main data) <;> rfl

theorem orElseErr_none_right (o : Option ExecutionError) : orElseErr o none = o := by
  cases o <;> rfl

theorem noStop_cons {e : ChannelEvent} {pre : List ChannelEvent}
    (h : noStop (e :: pre) = true) : isStop e = false ∧ noStop pre = true := by
  have h' := h
  simp only [noStop, List.all_cons, Bool.and_eq_true, Bool.not_eq_true'] at h'
  exact ⟨h'.1, h'.2⟩

theorem drain_exc (n s : String) (post : List ChannelEvent) :
    ∀ (pre : List ChannelEvent) (ex : Execution), noStop pre = true →
      drain ex (pre ++ .exc n s :: post)
        = { drain ex pre with error := some ⟨.str n, .str s, .arr []⟩ } := by
  intro pre
  induction pre with
  | nil => intro ex _; rfl
  | cons e pre ih =>
    intro ex h
    obtain ⟨he, hrest⟩ := noStop_cons h
    cases e with
    | msg m =>
      cases m with
      | stream name text ts => simpa [drain] using ih _ hrest
      | executeResult data => simpa [drain] using ih _ hrest
      | displayData data => simpa [drain] using ih _ hrest
      | errorMsg a b c => simpa [drain] using ih _ hrest
      | statusIdle => simp [isStop] at he
      | statusBusy => simpa [drain] using ih _ hrest
      | otherMsg => simpa [drain] using ih _ hrest
    | exc a b => simp [isStop] at he

theorem drain_append_noStop :
    ∀ (pre : List ChannelEvent) (rest : List ChannelEvent) (ex : Execution),
      noStop pre = true → drain ex (pre ++ rest) = drain (drain ex pre) rest := by
  intro pre
  induction pre with
  | nil => intro rest ex _; rfl
  | cons e pre ih =>
    intro rest ex h
    obtain ⟨he, hrest⟩ := noStop_cons h
    cases e with
    | msg m =>
      cases m with
      | stream name text ts => simpa [drain] using ih _ _ hrest
      | executeResult data => simpa [drain] using ih _ _ hrest
      | displayData data => simpa [drain] using ih _ _ hrest
      | errorMsg a b c => simpa [drain] using ih _ _ hrest
      | statusIdle => simp [isStop] at he
      | statusBusy => simpa [drain] using ih _ _ hrest
      | otherMsg => simpa [drain] using ih _ _ hrest
    | exc a b => simp [isStop] at he

theorem drain_error_field :
    ∀ (pre : List ChannelEvent) (ex : Execution), noStop pre = true →
      (drain ex pre).error = orElseErr (lastError pre) ex.error := by
  intro pre
  induction pre with
  | nil => intro ex _; rfl
  | cons e pre ih =>
    intro ex h
    obtain ⟨he, hrest⟩ := noStop_cons h
    cases e with
    | msg m =>
      cases m with
      | stream name text ts =>
        simp only [drain, lastError, evErr, orElseErr_none_right]
        rw [ih _ hrest, error_parse_stream]
      | executeResult data =>
        simp only [drain, lastError, evErr, orElseErr_none_right]
        rw [ih _ hrest, error_parse_result]
      | displayData data =>
        simp only [drain, lastError, evErr, orElseErr_none_right]
        rw [ih _ hrest, error_parse_result]
      | errorMsg a b c =>
        simp only [drain, lastError, evErr]
        rw [ih _ hrest, parse_output_errorWire]
        cases lastError pre <;> rfl
      | statusIdle => simp [isStop] at he
      | statusBusy =>
        simp only [drain, lastError, evErr, orElseErr_none_right]
        exact ih _ hrest
      | otherMsg =>
        simp only [drain, lastError, evErr, orElseErr_none_right]
        exact ih _ hrest
    | exc a b => simp [isStop] at he

end SlidesAgent

namespace SlidesAgent

/-! ## C9 / C10: the output classifier -/

/-- C9.  Output Classifier round-trip: feeding a `stdout` wire message
whose `text` field is `"hello"` appends exactly one stdout line `"hello"`
(and changes nothing else — no Result, no error); feeding a `result`
wire message with both `text` and `png` populated appends exactly one
Result with both fields set and `is_main_result` equal to the input
flag. -/
theorem c9_round_trip (ex : Execution) (t p : String) (flag : Bool) :
    parse_output ex (some (.obj [("type", .str "stdout"), ("text", .str "hello")]))
      = { ex with stdout := ex.stdout ++ [.str "hello"] }
  ∧ parse_output ex (some (.obj [("type", .str "result"), ("text", .str t),
        ("png", .str p), ("is_main_result", .bool flag)]))
      = { ex with results := ex.results ++
          [{ text := .str t, png := .str p, is_main_result := .bool flag }] } :=
  ⟨rfl, rfl⟩

theorem applyResult_cases (ex : Execution) (data : List (String × Json)) :
    (∃ e, applyResult ex data = .ok e) ∨ (∃ err, applyResult ex data = .error (err, ex)) := by
  unfold applyResult
  cases buildResult data with
  | ok r => exact .inl ⟨_, rfl⟩
  | error e => exact .inr ⟨e, rfl⟩

theorem applyStdout_cases (ex : Execution) (data : List (String × Json)) :
    (∃ e, applyStdout ex data = .ok e) ∨ (∃ err, applyStdout ex data = .error (err, ex)) := by
  unfold applyStdout
  cases dictGet "text" data with
  | none => exact .inr ⟨_, rfl⟩
  | some t => exact .inl ⟨_, rfl⟩

theorem applyStderr_cases (ex : Execution) (data : List (String × Json)) :
    (∃ e, applyStderr ex data = .ok e) ∨ (∃ err, applyStderr ex data = .error (err, ex)) := by
  unfold applyStderr
  cases dictGet "text" data with
  | none => exact .inr ⟨_, rfl⟩
  | some t => exact .inl ⟨_, rfl⟩

theorem applyErrorMsg_cases (ex : Execution) (data : List (String × Json)) :
    (∃ e, applyErrorMsg ex data = .ok e) ∨ (∃ err, applyErrorMsg ex data = .error (err, ex)) := by
  unfold applyErrorMsg
  cases dictGet "name" data with
  | none => exact .inr ⟨_, rfl⟩
  | some n =>
    cases dictGet "value" data with
    | none => exact .inr ⟨_, rfl⟩
    | some v =>
      cases dictGet "traceback" data with
      | none => exact .inr ⟨_, rfl⟩
      | some tb => exact .inl ⟨_, rfl⟩

theorem applyCount_cases (ex : Execution) (data : List (String × Json)) :
    (∃ e, applyCount ex data = .ok e) ∨ (∃ err, applyCount ex data = .error (err, ex)) := by
  unfold applyCount
  cases dictGet "execution_count" data with
  | none => exact .inr ⟨_, rfl⟩
  | some c => exact .inl ⟨_, rfl⟩

theorem dispatchType_cases (ex : Execution) (dtype : Json) (data : List (String × Json)) :
    (∃ e, dispatchType ex dtype data = .ok e)
  ∨ (∃ err, dispatchType ex dtype data = .error (err, ex)) := by
  unfold dispatchType
  cases jstrEq dtype "result" with
  | true => exact applyResult_cases ex data
  | false =>
    cases jstrEq dtype "stdout" with
    | true => exact applyStdout_cases ex data
    | false =>
      cases jstrEq dtype "stderr" with
      | true => exact applyStderr_cases ex data
      | false =>
        cases jstrEq dtype "error" with
        | true => exact applyErrorMsg_cases ex data
        | false =>
          cases jstrEq dtype "number_of_executions" with
          | true => exact applyCount_cases ex data
          | false => exact .inl ⟨ex, rfl⟩

theorem parseObj_cases (ex : Execution) (kvs : List (String × Json)) :
    (∃ e, parseObj ex kvs = .ok e) ∨ (∃ err, parseObj ex kvs = .error (err, ex)) := by
  unfold parseObj
  cases dictPop "type" kvs with
  | none => exact .inr ⟨_, rfl⟩
  | some p => exact dispatchType_cases ex p.1 p.2

/-- C10.  `parse_output` is total and per-message atomic: for every
execution state and every outcome of `json.loads` on the input string
(invalid JSON, non-object values, objects with no `type`, wrongly shaped
or unrecognized objects included), the try body either fully classifies
the message, or raises with the execution completely unchanged — and in
either case the catch-all returns without propagating, yielding the
classified state respectively the untouched one. -/
theorem c10_total_atomic (ex : Execution) (output : Option Json) :
    (∃ e, parse_output_try ex output = .ok e ∧ parse_output ex output = e)
  ∨ (∃ err, parse_output_try ex output = .error (err, ex) ∧ parse_output ex output = ex) := by
  have hcore : (∃ e, parse_output_try ex output = .ok e)
      ∨ (∃ err, parse_output_try ex output = .error (err, ex)) := by
    cases output with
    | none => exact .inr ⟨.jsonDecodeError, rfl⟩
    | some j =>
      cases j with
      | null => exact .inr ⟨.typeError, rfl⟩
      | bool b => exact .inr ⟨.typeError, rfl⟩
      | num n => exact .inr ⟨.typeError, rfl⟩
      | str s => exact .inr ⟨.typeError, rfl⟩
      | arr xs => exact .inr ⟨.typeError, rfl⟩
      | obj kvs => exact parseObj_cases ex kvs
  rcases hcore with ⟨e, he⟩ | ⟨err, he⟩
  · exact .inl ⟨e, he, by unfold parse_output; rw [he]; rfl⟩
  · exact .inr ⟨err, he, by unfold parse_output; rw [he]; rfl⟩

/-! ## C7: read timeout / channel error while draining -/

/-- C7.  When a per-message channel read raises (timeout or any channel
error), `run_code` synthesizes an `ExecutionError` whose name is the
exception's type name, whose value is its `str(...)`, and whose traceback
is empty, overwrites the error slot with it, and stops draining
immediately — every stdout line and Result collected before that point
remains in the returned `Execution`. -/
theorem c7_exc_stops_draining (code : String) (pre post : List ChannelEvent)
    (n s : String) (h : noStop pre = true) :
    run_code code (pre ++ .exc n s :: post)
      = { run_code code pre with error := some ⟨.str n, .str s, .arr []⟩ } :=
  drain_exc n s post pre {} h

/-- Witness for C7 at a concrete run: one stdout line is read, then the
read times out; the partial stdout survives and the synthesized error is
recorded. -/
theorem c7_witness :
    noStop preStdout = true
  ∧ run_code "x" (preStdout ++ ChannelEvent.exc "Empty" "timed out" :: [])
      = { run_code "x" preStdout with
          error := some ⟨.str "Empty", .str "timed out", .arr []⟩ } :=
  ⟨rfl, c7_exc_stops_draining "x" preStdout [] "Empty" "timed out" rfl⟩

/-! ## C4: which error an Execution reports -/

/-- C4 counterexample.  A drained stream with two kernel `error`
messages: the returned `Execution` reports the second (last) error, not
the first — refuting the claim that the first error is kept and that an
error message terminates the classifier for the error slot. -/
theorem c4_counterexample :
    (run_code "x" twoErrorsIdle).error
        = some ⟨.str "BError", .str "b", .arr []⟩
  ∧ (run_code "x" twoErrorsIdle).error
        ≠ some ⟨.str "AError", .str "a", .arr []⟩ := by
  refine ⟨rfl, ?_⟩
  intro hcontra
  have hB : (run_code "x" twoErrorsIdle).error
      = some (ExecutionError.mk (.str "BError") (.str "b") (.arr [])) := rfl
  rw [hB] at hcontra
  injection hcontra with h1
  injection h1 with hn hv htb
  injection hn with hs
  exact absurd hs (by decide)

/-- C4 (amended).  An `Execution` holds at most one `ExecutionError` (a
single optional slot), and for a drained submission the slot reports
exactly the **last** error message of the stream: a later error after
partial success replaces the earlier one, and an error message does not
terminate the classifier. -/
theorem c4_amended_last_error_wins (code : String) (pre post : List ChannelEvent)
    (h : noStop pre = true) :
    (run_code code (pre ++ .msg .statusIdle :: post)).error = lastError pre := by
  unfold run_code
  rw [drain_append_noStop pre (.msg .statusIdle :: post) {} h]
  show (drain {} pre).error = lastError pre
  rw [drain_error_field pre {} h]
  cases lastError pre <;> rfl

/-- Witness for the amended C4 at a concrete stream with two errors. -/
theorem c4_witness :
    noStop twoErrors = true
  ∧ (run_code "x" (twoErrors ++ ChannelEvent.msg IOPubMsg.statusIdle :: [])).error
      = lastError twoErrors :=
  ⟨rfl, c4_amended_last_error_wins "x" twoErrors [] rfl⟩

end SlidesAgent

namespace SlidesAgent

/-! ## C5: the sandbox registry -/

theorem dictGet_dictSet {α : Type} (k : String) (v : α) :
    ∀ l : List (String × α), dictGet k (dictSet k v l) = some v := by
  intro l
  induction l with
  | nil => simp [dictSet, dictGet]
  | cons p rest ih =>
    obtain ⟨k', v'⟩ := p
    cases hk : k == k' with
    | true => simp [dictSet, dictGet, hk]
    | false => simp [dictSet, dictGet, hk, ih]

/-- C5 counterexample.  Acquiring twice for the same session id: the
second `setup_code_executor` call constructs a second `CodeExecutor`
(the construction counter reaches 2, not 1) and replaces the registry
entry with the new instance (instance 1, not the existing instance 0) —
refuting idempotence. -/
theorem c5_counterexample :
    (setup_code_executor (setup_code_executor reg0 "sess-1").1 "sess-1").1.next = 2
  ∧ ¬ ((setup_code_executor (setup_code_executor reg0 "sess-1").1 "sess-1").1.next = 1)
  ∧ dictGet "sess-1"
      (setup_code_executor (setup_code_executor reg0 "sess-1").1 "sess-1").1.instances
      = some 1
  ∧ ¬ (dictGet "sess-1"
        (setup_code_executor (setup_code_executor reg0 "sess-1").1 "sess-1").1.instances
      = some 0) := by
  refine ⟨rfl, by decide, rfl, by decide⟩

/-- C5 (amended).  `setup_code_executor` is not idempotent: every
invocation constructs and initializes a fresh `CodeExecutor` (the
construction counter always increments) and overwrites the registry
entry for the workflow id with the newly constructed instance, whether or
not a sandbox was already registered. -/
theorem c5_amended_always_constructs (r : Registry) (wf : String) :
    (setup_code_executor r wf).1.next = r.next + 1
  ∧ dictGet wf (setup_code_executor r wf).1.instances = some r.next :=
  ⟨rfl, dictGet_dictSet wf r.next r.instances⟩

/-! ## C3: the tool dispatcher boundary -/

/-- C3 counterexample.  Dispatching the recognized tool `get_slide` with
an argument object missing its required fields: `execute_tool` raises an
uncaught `KeyError` (modelled by `Except.error`) instead of returning an
`"Error: ..."` string — the exception propagates past the dispatcher
boundary. -/
theorem c3_counterexample :
    execute_tool tenv0 "wf-1" "get_slide" [] = .error (.keyError "file_path") := rfl

/-- C3 (amended).  Argument validation is absent: a missing required
field raises an uncaught `KeyError` out of `execute_tool` (see the
counterexample).  With every subscripted field present, the four file
handlers and the unknown-tool branch never let an exception propagate —
handler failures are caught and rendered as `"Error: <message>"` strings
(with the attempted-code suffix for the modify handlers) — but
`get_data_analysis` is not exception-safe even then: evaluating
`full_code = preamble + "\n" + code` outside both `try` blocks raises an
uncaught `TypeError` whenever the `code` argument is not a string; when
it is a string, `get_data_analysis` always returns a value (its failures
reported as status-error JSON payloads, not `"Error:"` strings). -/
theorem c3_amended_dispatcher_boundary :
    (∀ (env : ToolEnv) (wf name : String) (args : List (String × Json)),
        hasKeys args (requiredArgKeys name) = true →
        (name == "get_data_analysis") = false →
        ∃ v, execute_tool env wf name args = .ok v)
  ∧ (∀ (env : ToolEnv) (wf : String) (fp sn : Json) (codeStr : String),
        ∃ v, get_data_analysis env fp sn (.str codeStr) wf = .ok v)
  ∧ (∀ (env : ToolEnv) (wf : String) (fp sn code d : Json),
        env.executorPresent wf = true →
        env.loadExcelDict fp sn = .ok d →
        isStrVal code = false →
        get_data_analysis env fp sn code wf = .error .typeError)
  ∧ (∀ (env : ToolEnv) (fp si : Json) (e : String),
        env.openPresentation fp = .error e →
        get_slide_xml env fp si = "Error: " ++ e)
  ∧ (∀ (env : ToolEnv) (fp sn : Json) (e : String),
        env.excelMarkdown fp sn = .error e →
        get_excel_table env fp sn = "Error: " ++ e)
  ∧ (∀ (env : ToolEnv) (fp code : Json) (i n : Int) (e : String),
        env.openPresentation fp = .ok n → 0 ≤ i → i < n →
        env.runSlideCode fp i code = .error e →
        modify_slide env fp (.num i) code = "Error: " ++ e ++ codeSuffix code)
  ∧ (∀ (env : ToolEnv) (fp sn code : Json) (e : String),
        env.modifyExcelCode fp sn code = .error e →
        modify_excel env fp sn code = "Error: " ++ e ++ codeSuffix code) := by
  refine ⟨?_, ?_, ?_, ?_, ?_, ?_, ?_⟩
  · intro env wf name args h hga
    unfold execute_tool
    unfold requiredArgKeys at h
    cases h1 : name == "get_slide" with
    | true =>
      rw [h1] at h
      simp only [hasKeys, List.all_cons, List.all_nil, Bool.and_eq_true,
        Option.isSome_iff_exists] at h
      obtain ⟨⟨fp, hfp⟩, ⟨si, hsi⟩, -⟩ := h
      rw [hfp, hsi]
      exact ⟨_, rfl⟩
    | false =>
      rw [h1] at h
      cases h2 : name == "get_excel_data" with
      | true =>
        rw [h2] at h
        simp only [hasKeys, List.all_cons, List.all_nil, Bool.and_eq_true,
          Option.isSome_iff_exists] at h
        obtain ⟨⟨fp, hfp⟩, ⟨sn, hsn⟩, -⟩ := h
        rw [hfp, hsn]
        exact ⟨_, rfl⟩
      | false =>
        rw [h2] at h
        cases h3 : name == "modify_slide" with
        | true =>
          rw [h3] at h
          simp only [hasKeys, List.all_cons, List.all_nil, Bool.and_eq_true,
            Option.isSome_iff_exists] at h
          obtain ⟨⟨fp, hfp⟩, ⟨si, hsi⟩, ⟨code, hcode⟩, -⟩ := h
          rw [hfp, hsi, hcode]
          exact ⟨_, rfl⟩
        | false =>
          rw [h3] at h
          cases h4 : name == "modify_excel" with
          | true =>
            rw [h4] at h
            simp only [hasKeys, List.all_cons, List.all_nil, Bool.and_eq_true,
              Option.isSome_iff_exists] at h
            obtain ⟨⟨fp, hfp⟩, ⟨sn, hsn⟩, ⟨code, hcode⟩, -⟩ := h
            rw [hfp, hsn, hcode]
            exact ⟨_, rfl⟩
          | false =>
            rw [hga]
            exact ⟨_, rfl⟩
  · intro env wf fp sn codeStr
    unfold get_data_analysis
    cases env.executorPresent wf with
    | false => exact ⟨_, rfl⟩
    | true =>
      cases env.loadExcelDict fp sn with
      | error e => exact ⟨_, rfl⟩
      | ok d => exact ⟨_, rfl⟩
  · intro env wf fp sn code d hpres hload hstr
    unfold get_data_analysis
    rw [hpres, hload]
    cases code with
    | str s => simp [isStrVal] at hstr
    | null => rfl
    | bool b => rfl
    | num n => rfl
    | arr xs => rfl
    | obj kvs => rfl
  · intro env fp si e he
    unfold get_slide_xml
    rw [he]
  · intro env fp sn e he
    unfold get_excel_table
    rw [he]
  · intro env fp code i n e hopen hle hlt hrun
    unfold modify_slide
    rw [hopen]
    dsimp only
    have hd : decide (0 ≤ i ∧ i < n) = true := decide_eq_true ⟨hle, hlt⟩
    rw [hd, hrun]
  · intro env fp sn code e he
    unfold modify_excel
    rw [he]

/-- Witness for the amended C3 at concrete environments and inputs,
including the uncaught `TypeError` of `get_data_analysis` on a
non-string `code` argument. -/
theorem c3_witness :
    hasKeys argsGetSlide (requiredArgKeys "get_slide") = true
  ∧ ("get_slide" == "get_data_analysis") = false
  ∧ (∃ v, execute_tool tenv0 "wf-1" "get_slide" argsGetSlide = Except.ok v)
  ∧ (∃ v, get_data_analysis tenv0 (.str "b.xlsx") (.str "Sheet1") (.str "x = 1") "wf-1"
        = Except.ok v)
  ∧ tenv0.executorPresent "wf-1" = true
  ∧ tenv0.loadExcelDict (.str "b.xlsx") (.str "Sheet1") = Except.ok (Json.obj [])
  ∧ isStrVal (Json.num 5) = false
  ∧ get_data_analysis tenv0 (.str "b.xlsx") (.str "Sheet1") (Json.num 5) "wf-1"
      = Except.error PyErr.typeError
  ∧ tenvOpenFail.openPresentation (.str "deck.pptx") = Except.error "boom"
  ∧ get_slide_xml tenvOpenFail (.str "deck.pptx") (.num 0) = "Error: " ++ "boom"
  ∧ tenvMdFail.excelMarkdown (.str "b.xlsx") (.str "Sheet1") = Except.error "read failed"
  ∧ get_excel_table tenvMdFail (.str "b.xlsx") (.str "Sheet1") = "Error: " ++ "read failed"
  ∧ tenvRunFail.runSlideCode (.str "deck.pptx") 0 (.str "x = 1") = Except.error "exec failed"
  ∧ modify_slide tenvRunFail (.str "deck.pptx") (.num 0) (.str "x = 1")
      = "Error: " ++ "exec failed" ++ codeSuffix (.str "x = 1")
  ∧ tenvExcelFail.modifyExcelCode (.str "b.xlsx") (.str "Sheet1") (.str "x = 1")
      = Except.error "write failed"
  ∧ modify_excel tenvExcelFail (.str "b.xlsx") (.str "Sheet1") (.str "x = 1")
      = "Error: " ++ "write failed" ++ codeSuffix (.str "x = 1") :=
  ⟨rfl, rfl,
   c3_amended_dispatcher_boundary.1 tenv0 "wf-1" "get_slide" argsGetSlide rfl rfl,
   c3_amended_dispatcher_boundary.2.1 tenv0 "wf-1" (.str "b.xlsx") (.str "Sheet1") "x = 1",
   rfl, rfl, rfl,
   c3_amended_dispatcher_boundary.2.2.1 tenv0 "wf-1" (.str "b.xlsx") (.str "Sheet1")
     (Json.num 5) (Json.obj []) rfl rfl rfl,
   rfl,
   c3_amended_dispatcher_boundary.2.2.2.1 tenvOpenFail (.str "deck.pptx") (.num 0) "boom" rfl,
   rfl,
   c3_amended_dispatcher_boundary.2.2.2.2.1 tenvMdFail (.str "b.xlsx") (.str "Sheet1")
     "read failed" rfl,
   rfl,
   c3_amended_dispatcher_boundary.2.2.2.2.2.1 tenvRunFail (.str "deck.pptx") (.str "x = 1") 0 1
     "exec failed" rfl (by decide) (by decide) rfl,
   rfl,
   c3_amended_dispatcher_boundary.2.2.2.2.2.2 tenvExcelFail (.str "b.xlsx") (.str "Sheet1")
     (.str "x = 1") "write failed" rfl⟩

end SlidesAgent

namespace SlidesAgent

/-! ## Step lemmas for the workflow machine -/

theorem tick_awaitSetup {env : Env} {s : WFState} (hp : s.phase = .awaitSetup) :
    tick env s = { s with phase := .waitInput } := by
  unfold tick; rw [hp]

theorem tick_waitInput_idle {env : Env} {s : WFState} (hp : s.phase = .waitInput)
    (hf : s.user_input_received = false) : tick env s = s := by
  unfold tick; rw [hp, hf]

theorem tick_waitInput_pending {env : Env} {s : WFState} (hp : s.phase = .waitInput)
    (hf : s.user_input_received = true) :
    tick env s = { s with user_input_received := false, phase := .awaitTurnSnap } := by
  unfold tick; rw [hp, hf]

theorem tick_awaitTurnSnap {env : Env} {s : WFState} (hp : s.phase = .awaitTurnSnap) :
    tick env s = { s with memory := env.snapshot s.pptx_files s.excel_files s.fsv
                          phase := .awaitMap } := by
  unfold tick; rw [hp]

theorem tick_awaitMap {env : Env} {s : WFState} (hp : s.phase = .awaitMap) :
    tick env s
      = { s with file_path_mapping := env.fileMapping s.pptx_files s.excel_files
                 messages :=
                   updateHead
                     (sysPrompt1 (env.dumpsMem s.memory)
                       (env.dumpsMap (env.fileMapping s.pptx_files s.excel_files)))
                     s.messages ++ [.user s.user_query]
                 phase := .awaitLlm } := by
  unfold tick; rw [hp]

theorem tick_awaitLlm_final {env : Env} {s : WFState} {c : String}
    (hp : s.phase = .awaitLlm) (hl : env.llm s.llmN = (c, [])) :
    tick env s = { s with messages := s.messages ++ [.assistant c []]
                          llmN := s.llmN + 1
                          phase := .waitInput } := by
  unfold tick; rw [hp, hl]

theorem tick_awaitLlm_tools {env : Env} {s : WFState} {c : String} {tc : ToolCall}
    {rest : List ToolCall} (hp : s.phase = .awaitLlm)
    (hl : env.llm s.llmN = (c, tc :: rest)) :
    tick env s = { s with messages := s.messages ++ [.assistant c (tc :: rest)]
                          llmN := s.llmN + 1
                          phase := .awaitTool tc rest } := by
  unfold tick; rw [hp, hl]

theorem tick_awaitTool_mut {env : Env} {s : WFState} {tc : ToolCall} {rest : List ToolCall}
    (hp : s.phase = .awaitTool tc rest) (hm : isMutating tc.name = true) :
    tick env s = { s with toolN := s.toolN + 1
                          fsv := s.fsv + 1
                          phase := .awaitToolSnap tc rest (env.tool s.toolN) } := by
  unfold tick; rw [hp]; dsimp only; rw [hm]

theorem tick_awaitTool_nonmut {env : Env} {s : WFState} {tc : ToolCall} {rest : List ToolCall}
    (hp : s.phase = .awaitTool tc rest) (hm : isMutating tc.name = false) :
    tick env s = { s with toolN := s.toolN + 1
                          messages := s.messages ++ [.tool tc.id tc.name (env.tool s.toolN)]
                          phase := nextPhase rest } := by
  unfold tick; rw [hp]; dsimp only; rw [hm]

theorem tick_awaitToolSnap {env : Env} {s : WFState} {tc : ToolCall} {rest : List ToolCall}
    {resp : String} (hp : s.phase = .awaitToolSnap tc rest resp) :
    tick env s
      = { s with memory := env.snapshot s.pptx_files s.excel_files s.fsv
                 messages :=
                   updateHead
                     (sysPrompt2 (env.dumpsMem (env.snapshot s.pptx_files s.excel_files s.fsv))
                       (env.dumpsMap s.file_path_mapping))
                     s.messages ++ [.tool tc.id tc.name resp]
                 phase := nextPhase rest } := by
  unfold tick; rw [hp]

/-! ## Transcript helpers -/

theorem updateHead_length (c : String) (l : List Message) :
    (updateHead c l).length = l.length := by
  cases l <;> rfl

theorem updateHead_tail (c : String) (l : List Message) :
    (updateHead c l).tail = l.tail := by
  cases l <;> rfl

theorem updateHead_ne_nil (c : String) {l : List Message} (h : l ≠ []) :
    updateHead c l ≠ [] := by
  cases l with
  | nil => exact absurd rfl h
  | cons m r => simp [updateHead]

theorem contentOf_setContent (c : String) (m : Message) :
    contentOf (setContent c m) = c := by
  cases m <;> rfl

theorem headContent_updateHead_append (c : String) (l : List Message)
    {msgs : List Message} (h : msgs ≠ []) :
    headContent (updateHead c msgs ++ l) = c := by
  cases msgs with
  | nil => exact absurd rfl h
  | cons m r => simp [updateHead, headContent, contentOf_setContent]

theorem headContent_append {msgs : List Message} (l : List Message) (h : msgs ≠ []) :
    headContent (msgs ++ l) = headContent msgs := by
  cases msgs with
  | nil => exact absurd rfl h
  | cons m r => rfl

theorem tail_append_of_ne_nil {l : List Message} (h : l ≠ []) (l' : List Message) :
    (l ++ l').tail = l.tail ++ l' := by
  cases l with
  | nil => exact absurd rfl h
  | cons m r => rfl

theorem append_singleton_ne_nil (l : List Message) (m : Message) : l ++ [m] ≠ [] := by
  simp

theorem ticks_one (env : Env) (s : WFState) : ticks env 1 s = tick env s := rfl

theorem ticks_add (env : Env) :
    ∀ (m n : Nat) (s : WFState), ticks env (m + n) s = ticks env n (ticks env m s) := by
  intro m
  induction m with
  | zero =>
    intro n s
    rw [Nat.zero_add]
    rfl
  | succ m ih =>
    intro n s
    rw [Nat.succ_add]
    show ticks env (m + n) (tick env s) = ticks env n (ticks env m (tick env s))
    exact ih n (tick env s)

end SlidesAgent

namespace SlidesAgent

/-! ## Processing one tool batch -/

theorem stepOneCall (env : Env) (s : WFState) (tc : ToolCall) (rest : List ToolCall)
    (hp : s.phase = .awaitTool tc rest) (hne : s.messages ≠ []) :
    (ticks env (toolCost tc) s).phase = nextPhase rest
  ∧ (ticks env (toolCost tc) s).llmN = s.llmN
  ∧ (ticks env (toolCost tc) s).toolN = s.toolN + 1
  ∧ (ticks env (toolCost tc) s).messages.tail
      = s.messages.tail ++ [.tool tc.id tc.name (env.tool s.toolN)]
  ∧ (ticks env (toolCost tc) s).messages ≠ []
  ∧ (ticks env (toolCost tc) s).messages.length = s.messages.length + 1 := by
  cases hm : isMutating tc.name with
  | false =>
    have hc : toolCost tc = 1 := by unfold toolCost; rw [hm]
    have e1 : ticks env (toolCost tc) s = tick env s := by rw [hc]; rfl
    rw [e1, tick_awaitTool_nonmut hp hm]
    refine ⟨rfl, rfl, rfl, ?_, ?_, ?_⟩
    · exact tail_append_of_ne_nil hne _
    · exact append_singleton_ne_nil _ _
    · simp
  | true =>
    have hc : toolCost tc = 2 := by unfold toolCost; rw [hm]
    have e1 : ticks env (toolCost tc) s = tick env (tick env s) := by rw [hc]; rfl
    rw [e1, tick_awaitTool_mut hp hm]
    have hp2 : ({ s with
        toolN := s.toolN + 1
        fsv := s.fsv + 1
        phase := Phase.awaitToolSnap tc rest (env.tool s.toolN) } : WFState).phase
        = Phase.awaitToolSnap tc rest (env.tool s.toolN) := rfl
    rw [tick_awaitToolSnap hp2]
    refine ⟨rfl, rfl, rfl, ?_, ?_, ?_⟩
    · rw [tail_append_of_ne_nil (updateHead_ne_nil _ hne), updateHead_tail]
    · exact append_singleton_ne_nil _ _
    · simp [updateHead_length]

theorem processCalls :
    ∀ (rest : List ToolCall) (tc : ToolCall) (env : Env) (s : WFState),
      s.phase = .awaitTool tc rest → s.messages ≠ [] →
      (ticks env (ticksForCalls (tc :: rest)) s).phase = .awaitLlm
    ∧ (ticks env (ticksForCalls (tc :: rest)) s).llmN = s.llmN
    ∧ (ticks env (ticksForCalls (tc :: rest)) s).toolN = s.toolN + (tc :: rest).length
    ∧ (ticks env (ticksForCalls (tc :: rest)) s).messages.tail
        = s.messages.tail ++ toolMsgs env s.toolN (tc :: rest)
    ∧ (ticks env (ticksForCalls (tc :: rest)) s).messages ≠ []
    ∧ (ticks env (ticksForCalls (tc :: rest)) s).messages.length
        = s.messages.length + (tc :: rest).length := by
  intro rest
  induction rest with
  | nil =>
    intro tc env s hp hne
    have hcount : ticksForCalls [tc] = toolCost tc := by
      unfold ticksForCalls; rfl
    rw [hcount]
    obtain ⟨f1, f2, f3, f4, f5, f6⟩ := stepOneCall env s tc [] hp hne
    exact ⟨f1, f2, f3, by rw [f4]; rfl, f5, f6⟩
  | cons tc' rest' ih =>
    intro tc env s hp hne
    have hcount : ticksForCalls (tc :: tc' :: rest')
        = toolCost tc + ticksForCalls (tc' :: rest') := rfl
    rw [hcount, ticks_add env (toolCost tc) (ticksForCalls (tc' :: rest')) s]
    obtain ⟨f1, f2, f3, f4, f5, f6⟩ := stepOneCall env s tc (tc' :: rest') hp hne
    have hp2 : (ticks env (toolCost tc) s).phase = .awaitTool tc' rest' := f1
    obtain ⟨g1, g2, g3, g4, g5, g6⟩ := ih tc' env (ticks env (toolCost tc) s) hp2 f5
    refine ⟨g1, ?_, ?_, ?_, g5, ?_⟩
    · rw [g2, f2]
    · rw [g3, f3]
      simp
      omega
    · rw [g4, f4, f3]
      show _ = s.messages.tail ++
        (Message.tool tc.id tc.name (env.tool s.toolN) :: toolMsgs env (s.toolN + 1) (tc' :: rest'))
      rw [List.append_assoc]
      rfl
    · rw [g6, f6]
      simp
      omega

/-- C2.  When the LLM returns an assistant message with a non-empty
tool-call list, the workflow appends that assistant message and then
exactly one tool message per `ToolCall` — with `tool_call_id` equal to
the call's id and content the corresponding `execute_tool` result — in
the order the LLM returned the calls, and the LLM invocation counter
stays at one past its previous value until the batch is finished (all
tool messages are in the transcript before the next LLM call fires). -/
theorem c2_tool_messages (env : Env) (s : WFState) (c : String) (tc : ToolCall)
    (rest : List ToolCall) (hne : s.messages ≠ []) (hp : s.phase = .awaitLlm)
    (hl : env.llm s.llmN = (c, tc :: rest)) :
    (ticks env (1 + ticksForCalls (tc :: rest)) s).phase = .awaitLlm
  ∧ (ticks env (1 + ticksForCalls (tc :: rest)) s).llmN = s.llmN + 1
  ∧ (ticks env (1 + ticksForCalls (tc :: rest)) s).messages.tail
      = s.messages.tail
        ++ Message.assistant c (tc :: rest) :: toolMsgs env s.toolN (tc :: rest) := by
  rw [ticks_add env 1 (ticksForCalls (tc :: rest)) s]
  have e1 : ticks env 1 s
      = { s with messages := s.messages ++ [.assistant c (tc :: rest)]
                 llmN := s.llmN + 1
                 phase := .awaitTool tc rest } := by
    rw [ticks_one]
    exact tick_awaitLlm_tools hp hl
  rw [e1]
  obtain ⟨g1, g2, g3, g4, g5, g6⟩ :=
    processCalls rest tc env
      { s with messages := s.messages ++ [.assistant c (tc :: rest)]
               llmN := s.llmN + 1
               phase := .awaitTool tc rest }
      rfl (append_singleton_ne_nil _ _)
  refine ⟨g1, g2, ?_⟩
  rw [g4]
  show (s.messages ++ [Message.assistant c (tc :: rest)]).tail
      ++ toolMsgs env s.toolN (tc :: rest) = _
  rw [tail_append_of_ne_nil hne, List.append_assoc]
  rfl

/-- Witness for C2 at a concrete environment whose first LLM call
requests one `get_slide` tool call. -/
theorem c2_witness :
    (ticks envOneTool (1 + ticksForCalls [tcGetSlide]) stateAtLlm).phase = Phase.awaitLlm
  ∧ (ticks envOneTool (1 + ticksForCalls [tcGetSlide]) stateAtLlm).llmN
      = stateAtLlm.llmN + 1
  ∧ (ticks envOneTool (1 + ticksForCalls [tcGetSlide]) stateAtLlm).messages.tail
      = stateAtLlm.messages.tail
        ++ Message.assistant "" [tcGetSlide]
            :: toolMsgs envOneTool stateAtLlm.toolN [tcGetSlide] :=
  c2_tool_messages envOneTool stateAtLlm "" tcGetSlide [] (List.cons_ne_nil _ _) rfl rfl

end SlidesAgent

namespace SlidesAgent

/-! ## Freshness invariant (C6) -/

theorem inv_init (env : Env) : Inv env initState :=
  ⟨List.cons_ne_nil _ _, trivial⟩

theorem inv_submit (env : Env) (s : WFState) (i : InputData) (h : Inv env s) :
    Inv env (user_input s i) :=
  h

theorem inv_tick (env : Env) (s : WFState) (h : Inv env s) : Inv env (tick env s) := by
  obtain ⟨hne, hmem⟩ := h
  cases hp : s.phase with
  | awaitSetup =>
    rw [tick_awaitSetup hp]
    exact ⟨hne, trivial⟩
  | waitInput =>
    cases hf : s.user_input_received with
    | false =>
      rw [tick_waitInput_idle hp hf]
      exact ⟨hne, hmem⟩
    | true =>
      rw [tick_waitInput_pending hp hf]
      exact ⟨hne, trivial⟩
  | awaitTurnSnap =>
    rw [tick_awaitTurnSnap hp]
    exact ⟨hne, ⟨s.pptx_files, s.excel_files, rfl⟩⟩
  | awaitMap =>
    simp only [Inv, MemInv, hp] at hmem
    obtain ⟨pp, ee, hm2⟩ := hmem
    rw [tick_awaitMap hp]
    refine ⟨append_singleton_ne_nil _ _, ?_⟩
    show freshContent env _
    refine ⟨pp, ee, env.dumpsMap (env.fileMapping s.pptx_files s.excel_files), .inl ?_⟩
    rw [headContent_updateHead_append _ _ hne, hm2]
  | awaitLlm =>
    cases hl : env.llm s.llmN with
    | mk c tcs =>
      cases tcs with
      | nil =>
        rw [tick_awaitLlm_final hp hl]
        exact ⟨append_singleton_ne_nil _ _, trivial⟩
      | cons tc rest =>
        simp only [Inv, MemInv, hp] at hmem
        rw [tick_awaitLlm_tools hp hl]
        refine ⟨append_singleton_ne_nil _ _, ?_⟩
        show freshContent env _
        obtain ⟨pp, ee, fm, hc⟩ := hmem
        refine ⟨pp, ee, fm, ?_⟩
        rw [headContent_append _ hne]
        exact hc
  | awaitTool tc rest =>
    simp only [Inv, MemInv, hp] at hmem
    cases hm : isMutating tc.name with
    | true =>
      rw [tick_awaitTool_mut hp hm]
      exact ⟨hne, trivial⟩
    | false =>
      rw [tick_awaitTool_nonmut hp hm]
      refine ⟨append_singleton_ne_nil _ _, ?_⟩
      obtain ⟨pp, ee, fm, hc⟩ := hmem
      cases rest with
      | nil =>
        show freshContent env _
        refine ⟨pp, ee, fm, ?_⟩
        rw [headContent_append _ hne]
        exact hc
      | cons tc' rest' =>
        show freshContent env _
        refine ⟨pp, ee, fm, ?_⟩
        rw [headContent_append _ hne]
        exact hc
  | awaitToolSnap tc rest resp =>
    rw [tick_awaitToolSnap hp]
    refine ⟨append_singleton_ne_nil _ _, ?_⟩
    cases rest with
    | nil =>
      show freshContent env _
      refine ⟨s.pptx_files, s.excel_files, env.dumpsMap s.file_path_mapping, .inr ?_⟩
      rw [headContent_updateHead_append _ _ hne]
    | cons tc' rest' =>
      show freshContent env _
      refine ⟨s.pptx_files, s.excel_files, env.dumpsMap s.file_path_mapping, .inr ?_⟩
      rw [headContent_updateHead_append _ _ hne]

theorem inv_run (env : Env) :
    ∀ (evs : List SEvent) (s : WFState), Inv env s → Inv env (runEvents env s evs) := by
  intro evs
  induction evs with
  | nil => intro s h; exact h
  | cons e evs ih =>
    intro s h
    cases e with
    | submit i => exact ih _ (inv_submit env s i h)
    | tickEv => exact ih _ (inv_tick env s h)

/-- C6.  Memory-snapshot freshness: along every schedule of signals and
await completions, whenever the workflow is about to issue an LLM call,
the system message content embeds (through one of the two prompt
templates) a memory snapshot taken at the current filesystem version —
i.e. rebuilt at the start of the current user turn or after the most
recent mutating tool call, whichever came later; it is never stale
across a mutation boundary. -/
theorem c6_memory_freshness (env : Env) (evs : List SEvent)
    (hp : (runEvents env initState evs).phase = .awaitLlm) :
    freshContent env (runEvents env initState evs) := by
  have h := inv_run env evs initState (inv_init env)
  have hm := h.2
  simpa only [MemInv, hp] using hm

/-- Witness for C6: a concrete schedule reaching the first LLM call. -/
theorem c6_witness :
    (runEvents env0 initState scheduleToLlm).phase = Phase.awaitLlm
  ∧ freshContent env0 (runEvents env0 initState scheduleToLlm) :=
  ⟨rfl, c6_memory_freshness env0 scheduleToLlm rfl⟩

end SlidesAgent

namespace SlidesAgent

/-! ## C1: submits during Processing -/

/-- C1 counterexample.  A second `user_input` signal delivered while the
first turn is Processing is not rejected: the run with the extra
mid-processing submit appends two user messages, both carrying the
second query (the in-flight turn itself processes `"q2"`), and runs two
turns, whereas without it exactly one turn runs processing `"q1"`. -/
theorem c1_counterexample :
    countUser (get_conversation_history (runEvents env0 initState scheduleIntr)) = 2
  ∧ userContents (get_conversation_history (runEvents env0 initState scheduleIntr))
      = ["q2", "q2"]
  ∧ countUser (get_conversation_history (runEvents env0 initState scheduleNoIntr)) = 1
  ∧ userContents (get_conversation_history (runEvents env0 initState scheduleNoIntr))
      = ["q1"]
  ∧ (2 : Nat) ≠ 1 :=
  ⟨rfl, rfl, rfl, rfl, by decide⟩

/-- C1 (amended).  A submit during Processing is accepted, not ignored:
the signal handler unconditionally overwrites the stored query and file
lists and re-arms the input-received flag, while leaving the transcript
and the suspension point untouched; successive submits coalesce with the
last writer winning (so all submits during one Processing phase fund at
most one additional turn, run with the last submit's data). -/
theorem c1_amended_submit_overwrites (s : WFState) (i j : InputData) :
    user_input (user_input s i) j = user_input s j
  ∧ (user_input s i).user_input_received = true
  ∧ (user_input s i).user_query = i.query
  ∧ (user_input s i).pptx_files = i.pptx_files
  ∧ (user_input s i).excel_files = i.excel_files
  ∧ (user_input s i).phase = s.phase
  ∧ (user_input s i).messages = s.messages :=
  ⟨rfl, rfl, rfl, rfl, rfl, rfl, rfl⟩

/-! ## C8: transcript growth of a one-tool-call turn -/

theorem tick_waitInput_facts (env : Env) {s : WFState} (hp : s.phase = .waitInput)
    (hf : s.user_input_received = true) :
    (tick env s).phase = .awaitTurnSnap
  ∧ (tick env s).messages = s.messages
  ∧ (tick env s).llmN = s.llmN
  ∧ (tick env s).toolN = s.toolN := by
  rw [tick_waitInput_pending hp hf]
  exact ⟨rfl, rfl, rfl, rfl⟩

theorem tick_awaitTurnSnap_facts (env : Env) {s : WFState} (hp : s.phase = .awaitTurnSnap) :
    (tick env s).phase = .awaitMap
  ∧ (tick env s).messages = s.messages
  ∧ (tick env s).llmN = s.llmN
  ∧ (tick env s).toolN = s.toolN := by
  rw [tick_awaitTurnSnap hp]
  exact ⟨rfl, rfl, rfl, rfl⟩

theorem tick_awaitMap_facts (env : Env) {s : WFState} (hp : s.phase = .awaitMap) :
    (tick env s).phase = .awaitLlm
  ∧ (tick env s).messages.length = s.messages.length + 1
  ∧ (tick env s).messages ≠ []
  ∧ (tick env s).llmN = s.llmN
  ∧ (tick env s).toolN = s.toolN := by
  rw [tick_awaitMap hp]
  refine ⟨rfl, ?_, append_singleton_ne_nil _ _, rfl, rfl⟩
  simp [updateHead_length]

theorem tick_awaitLlm_tools_facts (env : Env) {s : WFState} {c : String} {tc : ToolCall}
    {rest : List ToolCall} (hp : s.phase = .awaitLlm)
    (hl : env.llm s.llmN = (c, tc :: rest)) :
    (tick env s).phase = .awaitTool tc rest
  ∧ (tick env s).messages.length = s.messages.length + 1
  ∧ (tick env s).messages ≠ []
  ∧ (tick env s).llmN = s.llmN + 1
  ∧ (tick env s).toolN = s.toolN := by
  rw [tick_awaitLlm_tools hp hl]
  refine ⟨rfl, ?_, append_singleton_ne_nil _ _, rfl, rfl⟩
  simp

theorem tick_awaitLlm_final_facts (env : Env) {s : WFState} {c : String}
    (hp : s.phase = .awaitLlm) (hl : env.llm s.llmN = (c, [])) :
    (tick env s).phase = .waitInput
  ∧ (tick env s).messages.length = s.messages.length + 1 := by
  rw [tick_awaitLlm_final hp hl]
  refine ⟨rfl, ?_⟩
  simp

/-- C8 counterexample.  One turn with exactly one tool call and then a
final assistant message: `history()` grows by exactly 4 messages (user,
assistant-with-tool-call, tool, final assistant), not by 3 as the claim
states. -/
theorem c8_counterexample :
    (get_conversation_history (runEvents envOneTool initState scheduleOneTool)).length
      = (get_conversation_history initState).length + 4
  ∧ ¬ ((get_conversation_history (runEvents envOneTool initState scheduleOneTool)).length
      = (get_conversation_history initState).length + 3) :=
  ⟨rfl, by decide⟩

/-- C8 (amended).  For a turn in which the LLM requests exactly one tool
call and then returns a final message with no tool calls, `history()`
grows by exactly 4 messages — user, assistant-with-tool-call, tool,
final assistant — and the workflow returns to the Idle wait. -/
theorem c8_amended_turn_appends_four (env : Env) (s : WFState) (c c' : String)
    (tc : ToolCall) (hp : s.phase = .waitInput)
    (hf : s.user_input_received = true) (h0 : env.llm s.llmN = (c, [tc]))
    (h1 : env.llm (s.llmN + 1) = (c', [])) :
    (get_conversation_history (ticks env (4 + toolCost tc + 1) s)).length
      = (get_conversation_history s).length + 4
  ∧ (ticks env (4 + toolCost tc + 1) s).phase = .waitInput := by
  have e : ticks env (4 + toolCost tc + 1) s
      = tick env (ticks env (toolCost tc)
          (tick env (tick env (tick env (tick env s))))) := by
    rw [ticks_add env (4 + toolCost tc) 1 s, ticks_add env 4 (toolCost tc) s]
    rfl
  obtain ⟨p1, m1, l1, n1⟩ := tick_waitInput_facts env hp hf
  obtain ⟨p2, m2, l2, n2⟩ := tick_awaitTurnSnap_facts env p1
  obtain ⟨p3, len3, ne3, l3, n3⟩ := tick_awaitMap_facts env p2
  have hl0 : env.llm (tick env (tick env (tick env s))).llmN = (c, [tc]) := by
    rw [l3, l2, l1]; exact h0
  obtain ⟨p4, len4, ne4, l4, n4⟩ := tick_awaitLlm_tools_facts env p3 hl0
  obtain ⟨g1, g2, g3, g4, g5, g6⟩ :=
    stepOneCall env (tick env (tick env (tick env (tick env s)))) tc [] p4 ne4
  have hl1 : env.llm (ticks env (toolCost tc)
      (tick env (tick env (tick env (tick env s))))).llmN = (c', []) := by
    rw [g2, l4, l3, l2, l1]; exact h1
  obtain ⟨p6, len6⟩ := tick_awaitLlm_final_facts env g1 hl1
  constructor
  · show (ticks env (4 + toolCost tc + 1) s).messages.length = s.messages.length + 4
    rw [e, len6, g6, len4, len3, m2, m1]
  · rw [e]
    exact p6

/-- Witness for the amended C8 from a concretely reached ready state. -/
theorem c8_witness :
    (get_conversation_history
        (ticks envOneTool (4 + toolCost tcGetSlide + 1) stateReady)).length
      = (get_conversation_history stateReady).length + 4
  ∧ (ticks envOneTool (4 + toolCost tcGetSlide + 1) stateReady).phase
      = Phase.waitInput :=
  c8_amended_turn_appends_four envOneTool stateReady "" "done" tcGetSlide
    rfl rfl rfl rfl

end SlidesAgent
